import Mathlib

/-!
Verification of the text-interpretation and audio-device-resolution core of
ReachyMiniSimLite (src/reachy_solar_system_lite_voice_full.py), shallowly
embedded in Lean 4.  Strings are modelled as Lean strings over their
character lists; the Python character predicates str.isalnum, str.isspace
and str.lower coincide with Char.isAlphanum, Char.isWhitespace and
Char.toLower on the ASCII inputs the program manipulates.
-/

namespace Reachy

/-- Python substring membership `needle in hay`, on character lists:
true iff needle occurs contiguously in hay (the empty needle occurs
everywhere). -/
def containsSubL (needle : List Char) : List Char → Bool
  | [] => needle.isEmpty
  | c :: rest => List.isPrefixOf needle (c :: rest) || containsSubL needle rest

/-- Python `needle in hay` on strings. -/
def strContains (hay needle : String) : Bool :=
  containsSubL needle.data hay.data

/-- Python str.lower(), charwise. -/
def pyLower (s : String) : String :=
  String.mk (s.data.map Char.toLower)

/-- Python str.strip(): drop leading and trailing whitespace. -/
def pyStripL (s : List Char) : List Char :=
  ((s.dropWhile Char.isWhitespace).reverse.dropWhile Char.isWhitespace).reverse

/-- Helper for Python str.split() with no separator: accumulate the current
word (reversed) and cut at whitespace runs, dropping empty pieces. -/
def splitWSAux : List Char → List Char → List (List Char)
  | [], acc => if acc = [] then [] else [acc.reverse]
  | c :: rest, acc =>
    if c.isWhitespace then
      if acc = [] then splitWSAux rest []
      else acc.reverse :: splitWSAux rest []
    else splitWSAux rest (c :: acc)

/-- Python str.split() with no separator: split on whitespace runs. -/
def pySplit (s : String) : List String :=
  (splitWSAux s.data []).map String.mk

/-- `normalize` (line 715): keep alphanumeric and whitespace characters,
lowercase them, and strip leading/trailing whitespace. -/
def normalize (text : String) : String :=
  String.mk (pyStripL ((text.data.filter
    fun ch => ch.isAlphanum || ch.isWhitespace).map Char.toLower))

/-- `tokenize` (line 719): whitespace-split the normalized text, dropping
falsy (empty) pieces exactly as the Python comprehension does. -/
def tokenize (text : String) : List String :=
  (pySplit (normalize text)).filter (fun t => t ≠ "")

/-- Python set.issubset on token lists (sets of strings are modelled by
their underlying lists; subset ignores duplicates either way). -/
def subsetB (a b : List String) : Bool :=
  a.all (fun x => b.contains x)

/-- `SPOKEN_NUMBERS` (line 724): spoken number words to digit strings. -/
def SPOKEN_NUMBERS : List (String × String) :=
  [("one", "1"), ("won", "1"), ("want", "1"),
   ("two", "2"), ("to", "2"), ("too", "2"),
   ("three", "3"), ("tree", "3"), ("free", "3"),
   ("four", "4"), ("for", "4"), ("fore", "4"),
   ("five", "5"),
   ("six", "6"), ("sex", "6"), ("sits", "6")]

/-- Tier 2 of `parse_menu_choice`: scan the words of the normalized text;
on a spoken-number hit whose digit is a value of the table, return it. -/
def spokenNumberScan (values : List String) : List String → Option String
  | [] => none
  | w :: ws =>
    match SPOKEN_NUMBERS.lookup w with
    | some digit =>
      if values.contains digit then some digit else spokenNumberScan values ws
    | none => spokenNumberScan values ws

/-- Tier 3 of `parse_menu_choice`: first table phrase occurring as a
substring of the normalized text, in table order. -/
def keywordPhraseScan (text : String) : List (String × String) → Option String
  | [] => none
  | (phrase, choice) :: rest =>
    if strContains text phrase then some choice else keywordPhraseScan text rest

/-- `parse_menu_choice` (line 734).  The keyword table is a Python dict in
insertion order, modelled as an association list. -/
def parse_menu_choice (raw : String) (option_keywords : List (String × String)) :
    Option String :=
  let text := normalize raw
  if text = "" then none
  else if (option_keywords.map Prod.snd).contains text then some text
  else
    match spokenNumberScan (option_keywords.map Prod.snd) (pySplit text) with
    | some digit => some digit
    | none => keywordPhraseScan text option_keywords

/-- `MAIN_MENU_KEYWORDS` (line 774). -/
def MAIN_MENU_KEYWORDS : List (String × String) :=
  [("full lesson", "1"), ("all levels", "1"), ("run full", "1"),
   ("start lesson", "1"), ("all six", "1"),
   ("single level", "2"), ("pick a level", "2"), ("choose a level", "2"),
   ("one level", "2"), ("select level", "2"),
   ("ask a question", "3"), ("question", "3"), ("ask", "3"),
   ("exit", "4"), ("quit", "4"), ("bye", "4"), ("goodbye", "4"), ("done", "4")]

/-- `QAEntry` dataclass (line 627). -/
structure QAEntry where
  keywords : List String
  response : String
  deriving DecidableEq

/-- `FAQ_ENTRIES` (line 633), in table order. -/
def FAQ_ENTRIES : List QAEntry :=
  [⟨["plasma", "ionized", "charged particles"],
    "Plasma is a super-hot gas where electrons are freed from atoms."⟩,
   ⟨["shine", "light", "energy", "fusion"],
    "Fusion in the core releases energy that slowly escapes as light and heat."⟩,
   ⟨["sunspot", "spot", "dark"],
    "A sunspot is a cooler, darker area with very strong magnetic fields."⟩,
   ⟨["solar wind", "wind", "heliosphere"],
    "The solar wind is a stream of charged particles flowing out from the Sun."⟩,
   ⟨["age", "old", "formed"],
    "The Sun is about 4.6 billion years old."⟩,
   ⟨["magnetic", "magnetism", "flare", "eruption"],
    "Moving plasma twists magnetic fields, which can snap and release flares."⟩,
   ⟨["core", "gravity", "pressure"],
    "In the core, gravity creates huge pressure that makes fusion possible."⟩,
   ⟨["convection", "rise", "sink"],
    "Hot plasma rises, cools, and sinks in a rolling convection cycle."⟩,
   ⟨["radiative", "photon", "zig"],
    "Photons bounce around in a random walk before escaping the Sun."⟩,
   ⟨["how big", "size", "diameter", "sun"],
    "The Sun is huge -- about 1.39 million kilometers wide."⟩,
   ⟨["how big", "size", "diameter", "earth"],
    "Earth is about 12,742 kilometers wide."⟩,
   ⟨["distance", "far", "sun", "earth", "away"],
    "The Sun is about 150 million kilometers away from Earth."⟩,
   ⟨["hot", "temperature", "surface"],
    "The Sun\x27s surface is about 5,500 degrees Celsius."⟩,
   ⟨["hot", "temperature", "core"],
    "The Sun\x27s core is about 15 million degrees Celsius."⟩,
   ⟨["light", "travel", "sun", "earth", "time", "minutes"],
    "Light from the Sun reaches Earth in about 8 minutes 20 seconds."⟩,
   ⟨["how fast", "speed", "light"],
    "Light travels about 300,000 kilometers per second."⟩]

/-- Score of one FAQ entry (body of the inner loop of `match_faq`,
lines 824-830): per keyword phrase, 2 points when all its normalized
tokens lie in the question token set, else 1 point when the raw phrase
is a substring of the normalized question. -/
def scoreEntry (qnorm : String) (qtokens : List String) (e : QAEntry) : Nat :=
  e.keywords.foldl
    (fun s kw =>
      if subsetB (tokenize kw) qtokens then s + 2
      else if strContains qnorm kw then s + 1
      else s) 0

/-- The best-entry accumulator loop of `match_faq` (lines 823-833):
update on a strictly greater score, so ties keep the first-seen entry. -/
def faqLoop (qnorm : String) (qtokens : List String)
    (acc : Option QAEntry × Nat) : List QAEntry → Option QAEntry × Nat
  | [] => acc
  | e :: rest =>
    let score := scoreEntry qnorm qtokens e
    if acc.2 < score then faqLoop qnorm qtokens (some e, score) rest
    else faqLoop qnorm qtokens acc rest

/-- `match_faq` (line 819). -/
def match_faq (question : String) : Option String :=
  let best := faqLoop (normalize question) (tokenize question) (none, 0) FAQ_ENTRIES
  match best.1 with
  | some e => if 2 ≤ best.2 then some e.response else none
  | none => none

/-- The accepted-phrasing loop of `is_correct_answer` (lines 842-848). -/
def answerLoop (user_text : String) (user_tokens : List String) :
    List String → Bool
  | [] => false
  | ans :: rest =>
    let ans_text := normalize ans
    if ans_text ≠ "" && strContains user_text ans_text then true
    else
      let ans_tokens := tokenize ans
      if ans_tokens ≠ [] && subsetB ans_tokens user_tokens then true
      else answerLoop user_text user_tokens rest

/-- `is_correct_answer` (line 839). -/
def is_correct_answer (user : String) (accepted_answers : List String) : Bool :=
  answerLoop (normalize user) (tokenize user) accepted_answers

/-- An entry of the sounddevice catalog, with the fields the program
reads (`name`, `max_input_channels`, `max_output_channels`). -/
structure Device where
  name : String
  max_input_channels : Nat
  max_output_channels : Nat
  deriving DecidableEq

/-- `REACHY_MIC_KEYWORDS` (line 58). -/
def REACHY_MIC_KEYWORDS : List String :=
  ["reachy mini audio", "echo cancelling", "reachy", "pollen"]

/-- `REACHY_SPEAKER_KEYWORDS` (line 66). -/
def REACHY_SPEAKER_KEYWORDS : List String :=
  ["output (reachy", "reachy mini audio", "reachy", "pollen"]

/-- Inner device scan of `find_reachy_device` (lines 93-99): skip devices
with zero channels for the direction, return the first index whose
lowercased name contains the keyword. -/
def scanDevices (direction keyword : String) : Nat → List Device → Option Nat
  | _, [] => none
  | i, dev :: rest =>
    if direction = "input" && dev.max_input_channels == 0 then
      scanDevices direction keyword (i + 1) rest
    else if direction = "output" && dev.max_output_channels == 0 then
      scanDevices direction keyword (i + 1) rest
    else if strContains (pyLower dev.name) keyword then some i
    else scanDevices direction keyword (i + 1) rest

/-- Outer keyword loop of `find_reachy_device` (line 92). -/
def keywordLoop (direction : String) (devices : List Device) :
    List String → Option Nat
  | [] => none
  | kw :: kws =>
    match scanDevices direction kw 0 devices with
    | some i => some i
    | none => keywordLoop direction devices kws

/-- `find_reachy_device` (line 74), with the device catalog passed in
place of the `sd.query_devices()` call. -/
def find_reachy_device (direction : String) (devices : List Device) :
    Option Nat :=
  let keywords :=
    if direction = "input" then REACHY_MIC_KEYWORDS else REACHY_SPEAKER_KEYWORDS
  keywordLoop direction devices keywords

/-- Alternative-output search of `detect_reachy_audio` (lines 156-171):
first index other than the failed one with nonzero output channels,
a lowercased name containing the string reachy, and a successful
playback attempt.  `play i = true` models `sd.play` on device `i`
returning without raising. -/
def altOutputScan (play : Nat → Bool) (output_idx : Nat) :
    Nat → List Device → Option Nat
  | _, [] => none
  | i, d :: rest =>
    if i = output_idx then altOutputScan play output_idx (i + 1) rest
    else if d.max_output_channels == 0 then altOutputScan play output_idx (i + 1) rest
    else if !(strContains (pyLower d.name) "reachy") then
      altOutputScan play output_idx (i + 1) rest
    else if play i then some i
    else altOutputScan play output_idx (i + 1) rest

/-- `detect_reachy_audio` (line 103), with the catalog and a playback
oracle passed in: `play i = true` means the silent-buffer playback on
device `i` succeeds (does not raise). -/
def detect_reachy_audio (devices : List Device) (play : Nat → Bool) :
    Option Nat × Option Nat :=
  let input_idx := find_reachy_device "input" devices
  let output_idx := find_reachy_device "output" devices
  match output_idx with
  | none => (input_idx, none)
  | some idx =>
    if play idx then (input_idx, some idx)
    else
      match altOutputScan play idx 0 devices with
      | some j => (input_idx, some j)
      | none => (input_idx, none)

/-- The observable calls `OfflineVoiceIO.speak` makes, each modelled in an
exception monad: `engineInit` is the engine construction of lines 297-298
(outside any try block), `tempFile` the temp-WAV creation of lines 302-303
(on the output-device path, also outside any try block and able to raise
OSError), `renderAndPlay` the guarded save-to-WAV plus device playback of
lines 305-309, `defaultSpeak` the guarded default-output synthesis of
lines 322-327.  The unlink of line 316 raises at most OSError and is
caught by the handler of line 317, so it is not a failure source. -/
structure SpeakCalls where
  engineInit : Except String Unit
  tempFile : Except String Unit
  renderAndPlay : Except String Unit
  defaultSpeak : Except String Unit

/-- The default-output path of `speak` (lines 321-329): its try block
swallows every exception (`except Exception: pass`). -/
def defaultPath (oc : SpeakCalls) : Except String Unit :=
  match oc.defaultSpeak with
  | Except.ok _ => Except.ok ()
  | Except.error _ => Except.ok ()

/-- `OfflineVoiceIO.speak` (line 289) in the exception monad: the initial
engine construction is unguarded; with an output device set, the temp-WAV
creation of line 302 is also unguarded (the try block only starts at line
304), and a failing render-and-play falls through to the guarded default
path. -/
def speak (oc : SpeakCalls) (output_device : Option Nat) : Except String Unit :=
  match oc.engineInit with
  | Except.error e => Except.error e
  | Except.ok _ =>
    match output_device with
    | some _ =>
      match oc.tempFile with
      | Except.error e => Except.error e
      | Except.ok _ =>
        match oc.renderAndPlay with
        | Except.ok _ => Except.ok ()
        | Except.error _ => defaultPath oc
    | none => defaultPath oc

/-! ### Specification-side definitions

Definitions in this section follow the wording of the specification (and
of the claims derived from it), to be compared with the source-derived
definitions above. -/

/-- Spec wording of `normalize` (claim C2): lowercase, drop characters that
are neither alphanumeric nor whitespace, collapse internal whitespace runs
to a single separator and trim the ends (realised by whitespace-splitting
and rejoining with single spaces). -/
def normalize_claimed (text : String) : String :=
  String.intercalate " "
    (pySplit (String.mk ((text.data.filter
      fun ch => ch.isAlphanum || ch.isWhitespace).map Char.toLower)))

/-- Amended wording of `normalize`: lowercase, drop characters that are
neither alphanumeric nor whitespace, and strip leading and trailing
whitespace only, keeping internal whitespace as written. -/
def normalize_amended (text : String) : String :=
  String.mk (pyStripL (text.data.filterMap
    fun ch => if ch.isAlphanum || ch.isWhitespace then some ch.toLower else none))

/-- One accepted phrasing passes (claim C7): its normalization is a
non-empty substring of the normalized user text, or its token set is
non-empty and contained in the user token set. -/
def acceptsB (user_text : String) (user_tokens : List String) (ans : String) : Bool :=
  (decide (normalize ans ≠ "") && strContains user_text (normalize ans)) ||
  (decide (tokenize ans ≠ []) && subsetB (tokenize ans) user_tokens)

/-- Spec wording of the menu tiers (claim C6), with no guard on empty
normalized text: tier 1 exact token value, tier 2 spoken-number lexicon
over the words, tier 3 first substring-matching table phrase. -/
def parse_menu_choice_claimed (raw : String)
    (option_keywords : List (String × String)) : Option String :=
  let text := normalize raw
  let values := option_keywords.map Prod.snd
  if values.contains text then some text
  else
    match (pySplit text).findSome?
        (fun w =>
          match SPOKEN_NUMBERS.lookup w with
          | some digit => if values.contains digit then some digit else none
          | none => none) with
    | some digit => some digit
    | none =>
      option_keywords.findSome?
        (fun pc => if strContains text pc.1 then some pc.2 else none)

/-- First entry of the list attaining the maximum of the score function,
together with that maximum; ties prefer the earlier entry (claim C5). -/
def firstMax (f : QAEntry → Nat) : List QAEntry → Option (QAEntry × Nat)
  | [] => none
  | e :: rest =>
    match firstMax f rest with
    | none => some (e, f e)
    | some p => if p.2 ≤ f e then some (e, f e) else some p

/-- Spec wording of `match_faq` (claim C5): the first-seen highest-scoring
entry answers exactly when its score is at least 2. -/
def match_faq_spec (question : String) : Option String :=
  match firstMax (scoreEntry (normalize question) (tokenize question)) FAQ_ENTRIES with
  | none => none
  | some p => if 2 ≤ p.2 then some p.1.response else none

/-- Spec wording of device eligibility (claim C4): the lowercased name
contains the keyword and the channel count for the direction is nonzero. -/
def deviceMatches (direction kw : String) (dev : Device) : Bool :=
  strContains (pyLower dev.name) kw &&
    (if direction = "input" then dev.max_input_channels != 0
     else dev.max_output_channels != 0)

/-- Index of the first device (from index `i`) satisfying `deviceMatches`. -/
def firstMatchIdx (direction kw : String) : Nat → List Device → Option Nat
  | _, [] => none
  | i, dev :: rest =>
    if deviceMatches direction kw dev then some i
    else firstMatchIdx direction kw (i + 1) rest

/-- Spec wording of `find_reachy_device` (claim C4): first keyword, in
priority order, that matches some eligible device; keyword priority
dominates device order. -/
def find_reachy_device_spec (direction : String) (devices : List Device) :
    Option Nat :=
  (if direction = "input" then REACHY_MIC_KEYWORDS else REACHY_SPEAKER_KEYWORDS).findSome?
    (fun kw => firstMatchIdx direction kw 0 devices)

/-- Spec wording of an eligible fallback output device (claim C8): any
other device with nonzero output channels whose lowercased name contains
the fallback keyword and whose playback verification succeeds. -/
def altCandidate (play : Nat → Bool) (origIdx i : Nat) (d : Device) : Bool :=
  decide (i ≠ origIdx) && decide (d.max_output_channels ≠ 0) &&
    strContains (pyLower d.name) "reachy" && play i

/-- Spec wording of the fallback search (claim C8): first candidate in
catalog order. -/
def alt_output_spec (play : Nat → Bool) (origIdx : Nat) :
    Nat → List Device → Option Nat
  | _, [] => none
  | i, d :: rest =>
    if altCandidate play origIdx i d then some i
    else alt_output_spec play origIdx (i + 1) rest

/-- Demo catalog of the spec: one device named Reachy Mini Audio with two
input and two output channels. -/
def demoCatalog : List Device := [⟨"Reachy Mini Audio", 2, 2⟩]

/-- Demo catalog for the fallback scenario: the resolved output device
(index 0) plus one alternate output-capable device whose name contains
the fallback keyword. -/
def demoFallbackCatalog : List Device :=
  [⟨"Reachy Mini Audio", 2, 2⟩, ⟨"Reachy Alt Speaker", 0, 2⟩]

/-- Playback oracle for the fallback scenario: only device 1 plays. -/
def demoFallbackPlay : Nat → Bool := fun i => i == 1

/-- Playback oracle on which every device plays. -/
def demoPlayAll : Nat → Bool := fun _ => true

/-! ### Helper lemmas -/

lemma isPrefixOf_self (l : List Char) : List.isPrefixOf l l = true := by
  induction l with
  | nil => rfl
  | cons c t ih => simp [List.isPrefixOf, ih]

lemma containsSubL_self (l : List Char) : containsSubL l l = true := by
  cases l with
  | nil => rfl
  | cons c t => simp [containsSubL, isPrefixOf_self]

lemma strContains_self (s : String) : strContains s s = true :=
  containsSubL_self s.data

lemma answerLoop_eq_any (ut : String) (utk : List String) (l : List String) :
    answerLoop ut utk l = l.any (acceptsB ut utk) := by
  induction l with
  | nil => rfl
  | cons a rest ih =>
    simp only [answerLoop, List.any_cons, ← ih, acceptsB]
    simp [Bool.or_assoc]

lemma filter_map_lower (l : List Char) :
    ((l.filter fun ch => ch.isAlphanum || ch.isWhitespace).map Char.toLower) =
      l.filterMap
        (fun ch => if ch.isAlphanum || ch.isWhitespace then some ch.toLower else none) := by
  induction l with
  | nil => rfl
  | cons c t ih =>
    cases h : (c.isAlphanum || c.isWhitespace) <;>
      simp only [List.filter_cons, List.filterMap_cons, h] <;> simp [ih]

lemma normalize_eq_amended (text : String) : normalize text = normalize_amended text := by
  simp only [normalize, normalize_amended, filter_map_lower]

lemma spokenNumberScan_eq (values : List String) (ws : List String) :
    spokenNumberScan values ws =
      ws.findSome?
        (fun w =>
          match SPOKEN_NUMBERS.lookup w with
          | some digit => if values.contains digit then some digit else none
          | none => none) := by
  induction ws with
  | nil => rfl
  | cons w ws ih =>
    simp only [spokenNumberScan, List.findSome?_cons]
    cases SPOKEN_NUMBERS.lookup w with
    | none => simpa using ih
    | some digit =>
      cases h : values.contains digit <;> simp only [h] <;> simp [ih]

lemma keywordPhraseScan_eq (text : String) (table : List (String × String)) :
    keywordPhraseScan text table =
      table.findSome? (fun pc => if strContains text pc.1 then some pc.2 else none) := by
  induction table with
  | nil => rfl
  | cons pc rest ih =>
    obtain ⟨phrase, choice⟩ := pc
    simp only [keywordPhraseScan, List.findSome?_cons]
    cases h : strContains text phrase <;> simp [ih]

lemma faqLoop_firstMax (qn : String) (qt : List String) (l : List QAEntry) :
    ∀ acc : Option QAEntry × Nat,
      faqLoop qn qt acc l =
        match firstMax (scoreEntry qn qt) l with
        | none => acc
        | some p => if acc.2 < p.2 then (some p.1, p.2) else acc := by
  induction l with
  | nil => intro acc; rfl
  | cons e rest ih =>
    intro acc
    cases hr : firstMax (scoreEntry qn qt) rest with
    | none =>
      simp [faqLoop, firstMax, hr, ih]
    | some p =>
      by_cases hle : p.2 ≤ scoreEntry qn qt e
      · by_cases hlt : acc.2 < scoreEntry qn qt e
        · have h2 : ¬ scoreEntry qn qt e < p.2 := by omega
          simp [faqLoop, firstMax, hr, ih, hle, hlt, h2]
        · have h2 : ¬ acc.2 < p.2 := by omega
          simp [faqLoop, firstMax, hr, ih, hle, hlt, h2]
      · by_cases hlt : acc.2 < scoreEntry qn qt e
        · have h2 : scoreEntry qn qt e < p.2 := by omega
          have h3 : acc.2 < p.2 := by omega
          simp [faqLoop, firstMax, hr, ih, hle, hlt, h2, h3]
        · simp [faqLoop, firstMax, hr, ih, hle, hlt]

lemma scanDevices_eq_firstMatchIdx (direction : String)
    (hdir : direction = "input" ∨ direction = "output") (kw : String) :
    ∀ (i : Nat) (l : List Device),
      scanDevices direction kw i l = firstMatchIdx direction kw i l := by
  intro i l
  induction l generalizing i with
  | nil => rfl
  | cons dev rest ih =>
    rcases hdir with h | h <;> subst h <;>
      simp only [scanDevices, firstMatchIdx, deviceMatches] <;>
      by_cases hin : dev.max_input_channels = 0 <;>
      by_cases hout : dev.max_output_channels = 0 <;>
      by_cases hc : strContains (pyLower dev.name) kw = true <;>
      simp [ih, hin, hout, hc, beq_iff_eq]

lemma keywordLoop_eq_findSome (direction : String)
    (hdir : direction = "input" ∨ direction = "output") (devices : List Device) :
    ∀ kws : List String,
      keywordLoop direction devices kws =
        kws.findSome? (fun kw => firstMatchIdx direction kw 0 devices) := by
  intro kws
  induction kws with
  | nil => rfl
  | cons kw rest ih =>
    simp only [keywordLoop, List.findSome?_cons,
      scanDevices_eq_firstMatchIdx direction hdir kw]
    cases firstMatchIdx direction kw 0 devices <;> simp [ih]

lemma altOutputScan_eq_spec (play : Nat → Bool) (oi : Nat) :
    ∀ (i : Nat) (l : List Device),
      altOutputScan play oi i l = alt_output_spec play oi i l := by
  intro i l
  induction l generalizing i with
  | nil => rfl
  | cons d rest ih =>
    simp only [altOutputScan, alt_output_spec, altCandidate]
    by_cases he : i = oi
    · simp [he, ih]
    · by_cases hout : d.max_output_channels = 0 <;>
        by_cases hc : strContains (pyLower d.name) "reachy" = true <;>
        by_cases hp : play i = true <;>
        simp [he, hout, hc, hp, ih, beq_iff_eq]

lemma altOutputScan_play (play : Nat → Bool) (oi : Nat) :
    ∀ (i : Nat) (l : List Device) (j : Nat),
      altOutputScan play oi i l = some j → play j = true := by
  intro i l
  induction l generalizing i with
  | nil => intro j h; exact absurd h (by simp [altOutputScan])
  | cons d rest ih =>
    intro j h
    simp only [altOutputScan] at h
    split_ifs at h with h1 h2 h3 h4
    · exact ih (i + 1) j h
    · exact ih (i + 1) j h
    · exact ih (i + 1) j h
    · cases h; exact h4
    · exact ih (i + 1) j h

lemma defaultPath_ok (oc : SpeakCalls) : defaultPath oc = Except.ok () := by
  unfold defaultPath
  cases oc.defaultSpeak <;> rfl

/-! ### Claim theorems -/

/-- Claim C1, counterexample: on the main-menu table, the input
"I\x27d like to ask a question" is resolved by the spoken-number tier
(the word "to" maps to "2", a valid token), so the result is the token
"2" and not the keyword-phrase token "3" the claim states. -/
theorem parse_menu_choice_examples_cex :
    parse_menu_choice "I\x27d like to ask a question" MAIN_MENU_KEYWORDS = some "2" ∧
      parse_menu_choice "I\x27d like to ask a question" MAIN_MENU_KEYWORDS ≠ some "3" :=
  ⟨by decide, by decide⟩

/-- Claim C1, amended: with the main-menu keyword table,
parse_menu_choice resolves "1" to token "1", "won" to token "1"
(spoken-number correction), "I\x27d like to ask a question" to token "2"
(the spoken-number homophone "to", checked before keyword phrases), and
"xyz" to nothing-found. -/
theorem parse_menu_choice_examples :
    parse_menu_choice "1" MAIN_MENU_KEYWORDS = some "1" ∧
    parse_menu_choice "won" MAIN_MENU_KEYWORDS = some "1" ∧
    parse_menu_choice "I\x27d like to ask a question" MAIN_MENU_KEYWORDS = some "2" ∧
    parse_menu_choice "xyz" MAIN_MENU_KEYWORDS = none :=
  ⟨by decide, by decide, by decide, by decide⟩

/-- Claim C2, counterexample: normalize does not collapse runs of
internal whitespace; on "a  b" it keeps the double space while the
claimed collapsing normalization yields a single space. -/
theorem normalize_collapse_cex :
    normalize "a  b" = "a  b" ∧ normalize_claimed "a  b" = "a b" ∧
      normalize "a  b" ≠ normalize_claimed "a  b" :=
  ⟨by decide, by decide, by decide⟩

/-- Claim C2, amended: for every input string, normalize lowercases it,
drops every character that is neither alphanumeric nor whitespace, and
strips leading and trailing whitespace, leaving internal whitespace
unchanged; the example normalize of " Hello, World!! " equals
"hello world" still holds. -/
theorem normalize_correct :
    (∀ text : String, normalize text = normalize_amended text) ∧
      normalize " Hello, World!! " = "hello world" :=
  ⟨normalize_eq_amended, by decide⟩

/-- Claim C3, counterexample: reflexivity fails for a phrasing whose
normalization is empty: the phrasing "!" is a member of the accepted
list containing only "!", yet is_correct_answer rejects it because the
empty normalized phrasing and empty token set are both skipped. -/
theorem is_correct_answer_refl_cex :
    ("!" ∈ (["!"] : List String)) ∧ is_correct_answer "!" ["!"] = false :=
  ⟨by decide, by decide⟩

/-- Claim C3, amended: for every accepted-answer list A and every
phrasing p in A whose normalization is non-empty, is_correct_answer
accepts p against A. -/
theorem is_correct_answer_refl (A : List String) (p : String)
    (hmem : p ∈ A) (hne : normalize p ≠ "") :
    is_correct_answer p A = true := by
  unfold is_correct_answer
  rw [answerLoop_eq_any, List.any_eq_true]
  exact ⟨p, hmem, by simp [acceptsB, hne, strContains_self]⟩

/-- Witness for the amended claim C3 at the accepted list containing
the single phrasing plasma. -/
theorem is_correct_answer_refl_witness :
    is_correct_answer "plasma" ["plasma"] = true :=
  is_correct_answer_refl ["plasma"] "plasma" (by decide) (by decide)

/-- Claim C7: is_correct_answer accepts exactly when some accepted
phrasing either normalizes to a non-empty substring of the normalized
user text or has a non-empty normalized token set contained in the user
token set; and the two concrete examples of the specification hold. -/
theorem is_correct_answer_characterization :
    (∀ (user : String) (accepted : List String),
      is_correct_answer user accepted = true ↔
        ∃ a ∈ accepted,
          (normalize a ≠ "" ∧ strContains (normalize user) (normalize a) = true) ∨
          (tokenize a ≠ [] ∧ subsetB (tokenize a) (tokenize user) = true)) ∧
    is_correct_answer "it is plasma for sure" ["plasma"] = true ∧
    is_correct_answer "no idea" ["plasma"] = false := by
  refine ⟨fun user accepted => ?_, by decide, by decide⟩
  unfold is_correct_answer
  rw [answerLoop_eq_any, List.any_eq_true]
  simp [acceptsB]

/-- Claim C5: match_faq agrees everywhere with the specification
formulation (score each entry, keep the first-seen highest scorer,
answer only when its score is at least 2), and the two concrete
examples of the specification hold. -/
theorem match_faq_correct :
    (∀ q : String, match_faq q = match_faq_spec q) ∧
    match_faq "how old is the sun" = some "The Sun is about 4.6 billion years old." ∧
    match_faq "hello" = none := by
  refine ⟨fun q => ?_, by decide, by decide⟩
  unfold match_faq match_faq_spec
  rw [faqLoop_firstMax]
  cases hr : firstMax (scoreEntry (normalize q) (tokenize q)) FAQ_ENTRIES with
  | none => simp
  | some p =>
    by_cases h0 : 0 < p.2
    · simp [h0]
    · have hz : p.2 = 0 := by omega
      simp [h0, hz]

/-- Claim C6, counterexample: the three-tier description omits the
early return on empty normalized input; on the input "!" (which
normalizes to the empty string) with a table whose token value is the
empty string, parse_menu_choice returns nothing-found while the claimed
tier-1 rule would return the empty token. -/
theorem parse_menu_choice_empty_cex :
    parse_menu_choice "!" [("x", "")] = none ∧
      parse_menu_choice_claimed "!" [("x", "")] = some "" ∧
      parse_menu_choice "!" [("x", "")] ≠ parse_menu_choice_claimed "!" [("x", "")] :=
  ⟨by decide, by decide, by decide⟩

/-- Claim C6, amended: parse_menu_choice normalizes the input, returns
nothing-found immediately when the normalized text is empty, and
otherwise tries exactly the three claimed tiers in fixed order: exact
token-value equality, spoken-number lexicon over the words, first
substring-matching table phrase; nothing-found when all three fail. -/
theorem parse_menu_choice_tiers (raw : String) (table : List (String × String)) :
    parse_menu_choice raw table =
      if normalize raw = "" then none else parse_menu_choice_claimed raw table := by
  unfold parse_menu_choice parse_menu_choice_claimed
  by_cases h : normalize raw = ""
  · simp [h]
  · simp [h, spokenNumberScan_eq, keywordPhraseScan_eq]

/-- Claim C4: for either direction, find_reachy_device agrees with the
specification formulation (first keyword in priority order matching any
eligible device, scanning devices in catalog order, keyword priority
dominating device order, nothing-found when no keyword matches), and
the one-device demo catalog resolves both directions to index 0. -/
theorem find_reachy_device_correct :
    (∀ (devices : List Device) (direction : String),
      direction = "input" ∨ direction = "output" →
        find_reachy_device direction devices = find_reachy_device_spec direction devices) ∧
    find_reachy_device "input" demoCatalog = some 0 ∧
    find_reachy_device "output" demoCatalog = some 0 := by
  refine ⟨fun devices direction hdir => ?_, by decide, by decide⟩
  unfold find_reachy_device find_reachy_device_spec
  exact keywordLoop_eq_findSome direction hdir devices _

/-- Witness for claim C4 at the demo catalog and the input direction. -/
theorem find_reachy_device_correct_witness :
    find_reachy_device "input" demoCatalog = find_reachy_device_spec "input" demoCatalog :=
  find_reachy_device_correct.1 demoCatalog "input" (Or.inl rfl)

/-- Claim C8: when the resolved output device fails playback
verification, detect_reachy_audio returns exactly the first other
output-capable device whose lowercased name contains the fallback
keyword reachy and whose verification succeeds, and nothing (system
default) when no such device exists. -/
theorem detect_reachy_audio_fallback (devices : List Device) (play : Nat → Bool)
    (idx : Nat) (hfind : find_reachy_device "output" devices = some idx)
    (hfail : play idx = false) :
    (detect_reachy_audio devices play).2 = alt_output_spec play idx 0 devices := by
  simp only [detect_reachy_audio, hfind, hfail, Bool.false_eq_true, if_false,
    altOutputScan_eq_spec]
  cases alt_output_spec play idx 0 devices <;> rfl

/-- Witness for claim C8: with one working alternate containing the
fallback keyword, the alternate index 1 is returned, not the failing
original index 0. -/
theorem detect_reachy_audio_fallback_witness :
    (detect_reachy_audio demoFallbackCatalog demoFallbackPlay).2 =
        alt_output_spec demoFallbackPlay 0 0 demoFallbackCatalog ∧
      (detect_reachy_audio demoFallbackCatalog demoFallbackPlay).2 = some 1 :=
  ⟨detect_reachy_audio_fallback demoFallbackCatalog demoFallbackPlay 0
      (by decide) (by decide),
    by decide⟩

/-- Claim C9, counterexample: two calls on the output-device path sit
outside every try block and their failures propagate to the caller,
contradicting the claim that speak never propagates an exception: the
engine construction of lines 297-298, and the temp-WAV creation of
line 302, which fails even when the engine construction succeeds. -/
theorem speak_unguarded_init_cex :
    speak ⟨Except.error "init failed", Except.ok (), Except.ok (), Except.ok ()⟩
        (some 0) = Except.error "init failed" ∧
      speak ⟨Except.ok (), Except.error "tmpfile failed", Except.ok (), Except.ok ()⟩
        (some 0) = Except.error "tmpfile failed" :=
  ⟨rfl, rfl⟩

/-- Claim C9, amended: provided the initial engine construction
succeeds and, when an explicit output device is set, the unguarded
temp-WAV creation also succeeds, speak never propagates an error: a
failing guarded render-and-play path falls back to the default path,
whose failures are swallowed. -/
theorem speak_no_raise (oc : SpeakCalls) (dev : Option Nat)
    (h : oc.engineInit = Except.ok ())
    (ht : dev = none ∨ oc.tempFile = Except.ok ()) :
    speak oc dev = Except.ok () := by
  unfold speak
  simp only [h]
  cases dev with
  | none => exact defaultPath_ok oc
  | some d =>
    rcases ht with ht | ht
    · exact absurd ht (by simp)
    · simp only [ht]
      cases hr : oc.renderAndPlay with
      | ok u => rfl
      | error e => simp [hr, defaultPath_ok oc]

/-- Witness for the amended claim C9: both guarded paths fail, yet
speak returns normally. -/
theorem speak_no_raise_witness :
    speak ⟨Except.ok (), Except.ok (), Except.error "tts broke",
        Except.error "default broke"⟩ (some 3) = Except.ok () :=
  speak_no_raise ⟨Except.ok (), Except.ok (), Except.error "tts broke",
      Except.error "default broke"⟩
    (some 3) rfl (Or.inr rfl)

/-- Claim C10: whatever the catalog and the outcomes of the playback
attempts, a non-none output index returned by detect_reachy_audio is
one whose playback verification succeeded during the call. -/
theorem detect_output_verified (devices : List Device) (play : Nat → Bool) (i : Nat)
    (h : (detect_reachy_audio devices play).2 = some i) : play i = true := by
  unfold detect_reachy_audio at h
  cases hfind : find_reachy_device "output" devices with
  | none => simp [hfind] at h
  | some idx =>
    simp only [hfind] at h
    by_cases hp : play idx = true
    · simp [hp] at h
      exact h ▸ hp
    · simp only [Bool.not_eq_true] at hp
      simp [hp] at h
      cases halt : altOutputScan play idx 0 devices with
      | none => rw [halt] at h; simp at h
      | some j =>
        rw [halt] at h
        simp at h
        exact h ▸ altOutputScan_play play idx 0 devices j halt

/-- Witness for claim C10 at the demo catalog with an
always-succeeding playback oracle. -/
theorem detect_output_verified_witness : demoPlayAll 0 = true :=
  detect_output_verified demoCatalog demoPlayAll 0 (by decide)

end Reachy
